import Mathlib

/-!
Verification of the jurisdictional boundary enforcement kernel (jib).

Shallow embedding of the Go sources: the cryptographic SHA-256 digest, the
Merkle audit tree, the temporal boundaries, the Byzantine quorum predicate,
the invariant checker, the base `BoundaryEnforcer` and the integrated
`EnforceBoundaryWithAllChecks` pipeline.  Go maps are modelled as
association lists with unique-key insertion; the wall clock (`time.Now`)
is threaded as an explicit `now : Int` parameter; the external Ed25519
verification primitive from Go's standard library is an opaque boolean
parameter `ed`.
-/

/-- UTF-8 encoding of a single code point (Go strings are byte sequences). -/
def utf8Char (n : Nat) : List Nat :=
  if n < 128 then [n]
  else if n < 2048 then [192 ||| (n >>> 6), 128 ||| (n &&& 63)]
  else if n < 65536 then
    [224 ||| (n >>> 12), 128 ||| ((n >>> 6) &&& 63), 128 ||| (n &&& 63)]
  else
    [240 ||| (n >>> 18), 128 ||| ((n >>> 12) &&& 63),
     128 ||| ((n >>> 6) &&& 63), 128 ||| (n &&& 63)]

/-- UTF-8 bytes of a string, as Go sees the `[]byte` conversion. -/
def utf8Bytes (s : String) : List Nat :=
  s.data.foldr (fun c acc => utf8Char c.toNat ++ acc) []

/-- Truncation to a 32-bit word. -/
def w32 (n : Nat) : Nat := n % 4294967296

/-- 32-bit right rotation. -/
def rotateR32 (n x : Nat) : Nat := w32 ((x >>> n) ||| (x <<< (32 - n)))

/-- SHA-256 big sigma 0. -/
def sigmaBig0 (x : Nat) : Nat := rotateR32 2 x ^^^ rotateR32 13 x ^^^ rotateR32 22 x

/-- SHA-256 big sigma 1. -/
def sigmaBig1 (x : Nat) : Nat := rotateR32 6 x ^^^ rotateR32 11 x ^^^ rotateR32 25 x

/-- SHA-256 small sigma 0. -/
def sigmaSmall0 (x : Nat) : Nat := rotateR32 7 x ^^^ rotateR32 18 x ^^^ (x >>> 3)

/-- SHA-256 small sigma 1. -/
def sigmaSmall1 (x : Nat) : Nat := rotateR32 17 x ^^^ rotateR32 19 x ^^^ (x >>> 10)

/-- SHA-256 choice function. -/
def chf (x y z : Nat) : Nat := (x &&& y) ^^^ ((x ^^^ 4294967295) &&& z)

/-- SHA-256 majority function. -/
def majf (x y z : Nat) : Nat := (x &&& y) ^^^ (x &&& z) ^^^ (y &&& z)

/-- The 64 SHA-256 round constants. -/
def sha256K : List Nat :=
  [1116352408, 1899447441, 3049323471, 3921009573, 961987163,
   1508970993, 2453635748, 2870763221, 3624381080, 310598401,
   607225278, 1426881987, 1925078388, 2162078206, 2614888103,
   3248222580, 3835390401, 4022224774, 264347078, 604807628,
   770255983, 1249150122, 1555081692, 1996064986, 2554220882,
   2821834349, 2952996808, 3210313671, 3336571891, 3584528711,
   113926993, 338241895, 666307205, 773529912, 1294757372,
   1396182291, 1695183700, 1986661051, 2177026350, 2456956037,
   2730485921, 2820302411, 3259730800, 3345764771, 3516065817,
   3600352804, 4094571909, 275423344, 430227734, 506948616,
   659060556, 883997877, 958139571, 1322822218, 1537002063,
   1747873779, 1955562222, 2024104815, 2227730452, 2361852424,
   2428436474, 2756734187, 3204031479, 3329325298]

/-- SHA-256 initial hash values. -/
def sha256H0 : List Nat :=
  [1779033703, 3144134277, 1013904242,
   2773480762, 1359893119, 2600822924,
   528734635, 1541459225]

/-- Parse a byte list into big-endian 32-bit words. -/
def toWords : List Nat → List Nat
  | b0 :: b1 :: b2 :: b3 :: rest =>
    ((b0 <<< 24) ||| (b1 <<< 16) ||| (b2 <<< 8) ||| b3) :: toWords rest
  | _ => []

/-- One extension step of the message schedule, appended at index `ws.length`. -/
def extendStep (ws : List Nat) : List Nat :=
  let i := ws.length
  ws ++ [w32 (ws.getD (i - 16) 0 + sigmaSmall0 (ws.getD (i - 15) 0) +
              ws.getD (i - 7) 0 + sigmaSmall1 (ws.getD (i - 2) 0))]

/-- Run `n` extension steps. -/
def extendLoop : Nat → List Nat → List Nat
  | 0, ws => ws
  | n + 1, ws => extendLoop n (extendStep ws)

/-- Extend the 16 message words of a block to the 64-word schedule. -/
def extendWords (ws : List Nat) : List Nat := extendLoop 48 ws

/-- Working state of one SHA-256 compression. -/
structure Sha256State where
  a : Nat
  b : Nat
  c : Nat
  d : Nat
  e : Nat
  f : Nat
  g : Nat
  h : Nat

/-- One SHA-256 round. -/
def sha256Round (s : Sha256State) (k w : Nat) : Sha256State :=
  let t1 := w32 (s.h + sigmaBig1 s.e + chf s.e s.f s.g + k + w)
  let t2 := w32 (sigmaBig0 s.a + majf s.a s.b s.c)
  ⟨w32 (t1 + t2), s.a, s.b, s.c, w32 (s.d + t1), s.e, s.f, s.g⟩

/-- Compress one 64-byte block into the running hash values. -/
def sha256Compress (hs : List Nat) (block : List Nat) : List Nat :=
  let ws := extendWords (toWords block)
  let s0 : Sha256State :=
    ⟨hs.getD 0 0, hs.getD 1 0, hs.getD 2 0, hs.getD 3 0,
     hs.getD 4 0, hs.getD 5 0, hs.getD 6 0, hs.getD 7 0⟩
  let sf := (List.zip sha256K ws).foldl (fun s kw => sha256Round s kw.1 kw.2) s0
  [w32 (hs.getD 0 0 + sf.a), w32 (hs.getD 1 0 + sf.b), w32 (hs.getD 2 0 + sf.c),
   w32 (hs.getD 3 0 + sf.d), w32 (hs.getD 4 0 + sf.e), w32 (hs.getD 5 0 + sf.f),
   w32 (hs.getD 6 0 + sf.g), w32 (hs.getD 7 0 + sf.h)]

/-- SHA-256 padding: 0x80, zeros, then the 64-bit big-endian bit length. -/
def sha256pad (msg : List Nat) : List Nat :=
  let l := msg.length
  let k := (119 - l % 64) % 64
  let bl := l * 8
  msg ++ [128] ++ List.replicate k 0 ++
    [(bl >>> 56) % 256, (bl >>> 48) % 256, (bl >>> 40) % 256, (bl >>> 32) % 256,
     (bl >>> 24) % 256, (bl >>> 16) % 256, (bl >>> 8) % 256, bl % 256]

/-- Split a byte list into 64-byte chunks, with a structural fuel bound
(the fuel is always at least the number of chunks when called below). -/
def chunks64Go : Nat → List Nat → List (List Nat)
  | 0, _ => []
  | fuel + 1, l => if l = [] then [] else l.take 64 :: chunks64Go fuel (l.drop 64)

/-- Split a byte list into 64-byte chunks. -/
def chunks64 (l : List Nat) : List (List Nat) := chunks64Go l.length l

/-- SHA-256 digest (32 bytes) of a byte list. -/
def sha256bytes (msg : List Nat) : List Nat :=
  let hs := (chunks64 (sha256pad msg)).foldl sha256Compress sha256H0
  hs.foldr (fun w acc =>
    (w >>> 24) % 256 :: (w >>> 16) % 256 :: (w >>> 8) % 256 :: w % 256 :: acc) []

/-- Lowercase hexadecimal digit. -/
def hexChar (n : Nat) : Char :=
  if n < 10 then Char.ofNat (48 + n) else Char.ofNat (87 + n)

/-- Lowercase hex rendering of a byte list, as Go's fmt %x. -/
def bytesToHex (bs : List Nat) : String :=
  ⟨bs.foldr (fun b acc => hexChar (b / 16 % 16) :: hexChar (b % 16) :: acc) []⟩

/-- Lowercase-hex SHA-256 of a string, i.e. Go's
fmt.Sprintf %x of sha256.Sum256 of the byte conversion. -/
def sha256hex (s : String) : String := bytesToHex (sha256bytes (utf8Bytes s))

/-- Jurisdiction record (types.go); the attributes map is not needed by any claim. -/
structure Jurisdiction where
  id : String
  name : String
  jtype : String
  parentId : Option String
deriving DecidableEq, Repr

/-- ExecutionDomain record (types.go); metadata omitted. -/
structure ExecutionDomain where
  id : String
  name : String
  jurisdictionId : String
deriving DecidableEq, Repr

/-- Boundary record (types.go). -/
structure Boundary where
  id : String
  sourceJurisdictionId : String
  targetJurisdictionId : String
  allowed : Bool
  reason : String
deriving DecidableEq, Repr

/-- CryptographicBinding record (types.go); byte slices as Nat lists. -/
structure CryptographicBinding where
  id : String
  artifactId : String
  jurisdictionId : String
  bindingType : String
  signatureAlgorithm : String
  publicKey : List Nat
  signature : List Nat
  artifactHash : String
  timestamp : Int
deriving DecidableEq, Repr

/-- CanonicalForm (types.go): deterministic JSON with the five keys in
ASCII order, as produced by Go's json.Marshal on the ordered map. -/
def canonicalForm (cb : CryptographicBinding) : String :=
  "\x7b\"artifact_hash\":\"" ++ cb.artifactHash ++
  "\",\"artifact_id\":\"" ++ cb.artifactId ++
  "\",\"binding_type\":\"" ++ cb.bindingType ++
  "\",\"jurisdiction_id\":\"" ++ cb.jurisdictionId ++
  "\",\"timestamp\":" ++ toString cb.timestamp ++ "\x7d"

/-- Binding Verify (types.go): nil public key or empty signature fail;
otherwise the library Ed25519 verification, modelled by the opaque
parameter `ed`, decides. -/
def bindingVerify (ed : List Nat → String → List Nat → Bool)
    (cb : CryptographicBinding) : Bool :=
  if cb.publicKey = [] ∨ cb.signature = [] then false
  else ed cb.publicKey (canonicalForm cb) cb.signature

/-- BoundaryProof record (types.go). -/
structure BoundaryProof where
  id : String
  artifactId : String
  sourceDomainId : String
  targetDomainId : String
  jurisdictionId : String
  allowed : Bool
  reason : String
  timestamp : Int
  evidence : List String
deriving DecidableEq, Repr

/-- BoundaryProof.Hash (types.go): sha256 hex of the colon-joined fields,
with the Bool rendered as Go's %t. -/
def proofHash (bp : BoundaryProof) : String :=
  sha256hex (bp.id ++ ":" ++ bp.artifactId ++ ":" ++ bp.sourceDomainId ++ ":" ++
    bp.targetDomainId ++ ":" ++ (if bp.allowed then "true" else "false") ++ ":" ++
    toString bp.timestamp)

/-- TemporalBoundary record (temporal layer source). -/
structure TemporalBoundary where
  id : String
  sourceJurisdictionId : String
  targetJurisdictionId : String
  allowed : Bool
  reason : String
  validFrom : Option Int
  validUntil : Option Int
  temporalOperator : String
  renewalPolicy : Option String
deriving DecidableEq, Repr

/-- Second early return of IsValidAt: the ValidUntil check. -/
def IsValidAtUpper (vu : Option Int) (ts : Int) : Bool :=
  match vu with
  | some u => if ts > u then false else true
  | none => true

/-- TemporalBoundary.IsValidAt: false when before ValidFrom or after
ValidUntil, true otherwise (both bounds optional). -/
def IsValidAt (tb : TemporalBoundary) (ts : Int) : Bool :=
  match tb.validFrom with
  | some vf => if ts < vf then false else IsValidAtUpper tb.validUntil ts
  | none => IsValidAtUpper tb.validUntil ts

/-- Error taxonomy of the pipeline (error_handling.go and types.go),
carrying the human message (context maps and timestamps omitted). -/
inductive JIBErr where
  | invalidJurisdictionBinding (msg : String)
  | jurisdictionalViolation (msg : String)
  | bindingIntegrityViolation (msg : String)
  | temporalConstraintViolation (msg : String)
  | consensusFailure (msg : String)
  | invariantViolation (invariant : String)
deriving DecidableEq, Repr

/-- Merkle tree state: the ordered leaves and the accumulated level list. -/
structure MerkleTree where
  leaves : List String
  tree : List (List String)
deriving DecidableEq, Repr

/-- NewMerkleTree: empty leaves and levels. -/
def freshMerkleTree : MerkleTree := ⟨[], []⟩

/-- Parent hash of two nodes: sha256 hex of the concatenation. -/
def combineHash (l r : String) : String := sha256hex (l ++ r)

/-- One rebuild step: pair adjacent nodes left to right, duplicating an
unpaired last node, exactly as the i += 2 loop of rebuildTree. -/
def pairHash : List String → List String
  | [] => []
  | [l] => [combineHash l l]
  | l :: r :: rest => combineHash l r :: pairHash rest

/-- The levels a single rebuild appends, starting from the given current
level, with a structural fuel bound: the level itself, then the pairings
until one node remains. -/
def levelsFromGo : Nat → List String → List (List String)
  | 0, cur => [cur]
  | fuel + 1, cur =>
    if cur.length ≤ 1 then [cur] else cur :: levelsFromGo fuel (pairHash cur)

/-- The levels a single rebuild appends (the fuel `cur.length` always
suffices, see `levelsFrom_eq`). -/
def levelsFrom (cur : List String) : List (List String) :=
  levelsFromGo cur.length cur

/-- rebuildTree: on empty leaves the level list is cleared; otherwise the
freshly built levels are appended to the existing Tree slice (the source
never resets Tree first). -/
def rebuildTree (mt : MerkleTree) : MerkleTree :=
  if mt.leaves = [] then { mt with tree := [] }
  else { mt with tree := mt.tree ++ levelsFrom mt.leaves }

/-- AddLeaf: append the leaf hash, then rebuild. -/
def addLeaf (mt : MerkleTree) (h : String) : MerkleTree :=
  rebuildTree { mt with leaves := mt.leaves ++ [h] }

/-- AddLeaf over a whole sequence of leaves. -/
def addLeafs (mt : MerkleTree) (hs : List String) : MerkleTree :=
  hs.foldl addLeaf mt

/-- GetRoot: first node of the top level, empty string for an empty tree. -/
def getRoot (mt : MerkleTree) : String :=
  match mt.tree.getLast? with
  | none => ""
  | some lvl => match lvl with
    | [] => ""
    | r :: _ => r

/-- The level walk of GetProof: at each level take the i xor 1 sibling if
it is in range, then halve the index. -/
def getProofLoop : List (List String) → Nat → List String
  | [], _ => []
  | lvl :: rest, idx =>
    let sib := idx ^^^ 1
    (if h : sib < lvl.length then [lvl.get ⟨sib, h⟩] else []) ++
      getProofLoop rest (idx / 2)

/-- GetProof: empty for an empty tree or out-of-range index, otherwise the
level walk over all levels but the last. -/
def getProof (mt : MerkleTree) (leafIndex : Nat) : List String :=
  if mt.tree = [] ∨ leafIndex ≥ mt.leaves.length then []
  else getProofLoop mt.tree.dropLast leafIndex

/-- Root value determined by a leaf list alone: the head of the last
level a rebuild appends. -/
def rootOfLeaves (l : List String) : String :=
  ((levelsFrom l).getLastD []).headD ""

/-- Go map insertion on an association list: replace the value under an
existing key, otherwise append the new entry. -/
def insertMap {α : Type} (m : List (String × α)) (k : String) (v : α) :
    List (String × α) :=
  if (List.lookup k m).isSome then
    m.map (fun kv => if kv.1 = k then (k, v) else kv)
  else m ++ [(k, v)]

/-- Registries of the base BoundaryEnforcer. -/
structure BoundaryEnforcer where
  jurisdictions : List (String × Jurisdiction)
  executionDomains : List (String × ExecutionDomain)
  boundArtifacts : List (String × List CryptographicBinding)
  boundaries : List (String × Boundary)
deriving DecidableEq, Repr

/-- NewBoundaryEnforcer: all four registries empty. -/
def freshBoundaryEnforcer : BoundaryEnforcer := ⟨[], [], [], []⟩

/-- ResolveJurisdictionForArtifact: jurisdiction ids of the stored
bindings, empty when the artifact has none. -/
def resolveJurisdictionForArtifact (be : BoundaryEnforcer)
    (artifactID : String) : List String :=
  match List.lookup artifactID be.boundArtifacts with
  | none => []
  | some bindings => bindings.map (fun b => b.jurisdictionId)

/-- CheckBoundary of the base enforcer.  The method only reads the
registries, so the returned enforcer is the receiver unchanged; missing
domains and an artifact unbound to the source jurisdiction error, a
missing boundary rule denies with the fixed reason. -/
def CheckBoundary (be : BoundaryEnforcer)
    (artifactID sourceDomainID targetDomainID : String) (now : Int) :
    Except JIBErr BoundaryProof × BoundaryEnforcer :=
  match List.lookup sourceDomainID be.executionDomains,
        List.lookup targetDomainID be.executionDomains with
  | some sd, some td =>
    if (resolveJurisdictionForArtifact be artifactID).contains sd.jurisdictionId then
      let boundaryKey := sd.jurisdictionId ++ ":" ++ td.jurisdictionId
      let ar : Bool × String :=
        match List.lookup boundaryKey be.boundaries with
        | some b => (b.allowed, b.reason)
        | none => (false, "No explicit boundary rule defined")
      (.ok { id := sha256hex (artifactID ++ ":" ++ sourceDomainID ++ ":" ++ targetDomainID),
             artifactId := artifactID,
             sourceDomainId := sourceDomainID,
             targetDomainId := targetDomainID,
             jurisdictionId := sd.jurisdictionId,
             allowed := ar.1,
             reason := ar.2,
             timestamp := now,
             evidence := [] }, be)
    else
      (.error (.jurisdictionalViolation ("artifact " ++ artifactID ++
        " not bound to source jurisdiction " ++ sd.jurisdictionId)), be)
  | _, _ =>
    (.error (.jurisdictionalViolation ("artifact " ++ artifactID ++
      " not bound to source jurisdiction " ++ sourceDomainID)), be)

/-- InvariantChecker.CheckNoUnboundExecution (I1): some error message when
the artifact has no binding. -/
def checkNoUnboundExecution (be : BoundaryEnforcer) (artifactID : String) :
    Option String :=
  match List.lookup artifactID be.boundArtifacts with
  | none => some ("invariant I1 violated: " ++ artifactID ++ " has no bindings")
  | some bindings =>
    if bindings.isEmpty then
      some ("invariant I1 violated: " ++ artifactID ++ " has no bindings")
    else none

/-- InvariantChecker.CheckExplicitBoundaries (I2): a cross-jurisdiction
pair must have a registered boundary under the src:tgt key. -/
def checkExplicitBoundaries (be : BoundaryEnforcer)
    (sourceJID targetJID : String) : Option String :=
  if sourceJID ≠ targetJID then
    match List.lookup (sourceJID ++ ":" ++ targetJID) be.boundaries with
    | none => some ("invariant I2 violated: no boundary defined for " ++
        sourceJID ++ ":" ++ targetJID)
    | some _ => none
  else none

/-- InvariantChecker.CheckAuditability (I5): the proof must carry
non-empty id, artifact id, jurisdiction id and reason and a positive
timestamp.  (The Go nil-pointer guard has no counterpart here.) -/
def checkAuditability (p : BoundaryProof) : Option String :=
  if p.id = "" then some "proof missing ID"
  else if p.artifactId = "" then some "proof missing artifact_id"
  else if p.jurisdictionId = "" then some "proof missing jurisdiction_id"
  else if p.reason = "" then some "proof missing reason"
  else if p.timestamp ≤ 0 then some "proof missing timestamp"
  else none

/-- BindingRevocation.IsRevoked: revoked iff a recorded revocation time is
at or before the queried timestamp. -/
def isRevoked (revoked : List (String × Int)) (bindingID : String)
    (ts : Int) : Bool :=
  match List.lookup bindingID revoked with
  | none => false
  | some rt => rt ≤ ts

/-- A boundary decision proposal of the distributed enforcer. -/
structure BoundaryDecisionProposal where
  proposalId : String
  artifactId : String
  sourceDomainId : String
  targetDomainId : String
  proposedDecision : Bool
  proposerNodeId : String
  timestamp : Int
deriving DecidableEq, Repr

/-- A committed entry of the distributed decision log. -/
structure DecisionEntry where
  proposalId : String
  artifactId : String
  sourceDomain : String
  targetDomain : String
  decision : Bool
  timestamp : Int
deriving DecidableEq, Repr

/-- State of the DistributedBoundaryEnforcer. -/
structure DistributedBoundaryEnforcer where
  nodeId : String
  peers : List String
  proposals : List (String × BoundaryDecisionProposal)
  decisionLog : List DecisionEntry
deriving DecidableEq, Repr

/-- HasQuorum: with N = peers + 1 nodes and f = (N-1)/3 tolerated faults,
quorum is reached when at least 2f+1 vote ENTRIES are present, whatever
their boolean values. -/
def HasQuorum (dbe : DistributedBoundaryEnforcer)
    (votes : List (String × Bool)) : Bool :=
  let totalNodes := dbe.peers.length + 1
  let f := (totalNodes - 1) / 3
  let quorum := 2 * f + 1
  decide (votes.length ≥ quorum)

/-- ComputeDecision: false on an empty vote set, otherwise the conjunction
of all votes. -/
def ComputeDecision (votes : List (String × Bool)) : Bool :=
  if votes.length = 0 then false
  else votes.all (fun kv => kv.2)

/-- collectVotes of the source: every peer and the proposer itself vote
true (entries deduplicate as Go map writes). -/
def collectVotes (dbe : DistributedBoundaryEnforcer) : List (String × Bool) :=
  insertMap (dbe.peers.foldl (fun acc p => insertMap acc p true) []) dbe.nodeId true

/-- ProposeBoundaryDecision: record the proposal, collect the (stubbed)
votes, check quorum; on quorum compute the AND decision and append the
decision log entry, otherwise abort with a false decision.  collectVotes
cannot fail, so the Go error return is always nil and is dropped. -/
def proposeBoundaryDecision (dbe : DistributedBoundaryEnforcer)
    (artifactID sourceDomainID targetDomainID : String) (now : Int) :
    Bool × DistributedBoundaryEnforcer :=
  let data := dbe.nodeId ++ ":" ++ artifactID ++ ":" ++ sourceDomainID ++ ":" ++
    targetDomainID ++ ":" ++ toString now
  let proposalID := sha256hex data
  let proposal : BoundaryDecisionProposal :=
    { proposalId := proposalID, artifactId := artifactID,
      sourceDomainId := sourceDomainID, targetDomainId := targetDomainID,
      proposedDecision := false, proposerNodeId := dbe.nodeId, timestamp := now }
  let dbe1 := { dbe with proposals := insertMap dbe.proposals proposalID proposal }
  let votes := collectVotes dbe1
  if HasQuorum dbe1 votes then
    let decision := ComputeDecision votes
    (decision, { dbe1 with decisionLog := dbe1.decisionLog ++
      [{ proposalId := proposalID, artifactId := artifactID,
         sourceDomain := sourceDomainID, targetDomain := targetDomainID,
         decision := decision, timestamp := now }] })
  else (false, dbe1)

/-- A provenance node (provenance_tracking.go); metadata omitted. -/
structure ProvenanceNode where
  id : String
  artifactId : String
  operation : String
  jurisdictionId : String
  timestamp : Int
  parentNodes : List String
deriving DecidableEq, Repr

/-- A flow record of the DataFlowTracker. -/
structure FlowRecord where
  nodeId : String
  artifactId : String
  operation : String
  sourceJurisdiction : String
  targetJurisdiction : String
  timestamp : Int
  crossBoundary : Bool
deriving DecidableEq, Repr

/-- DataFlowTracker state: the provenance graph (nodes and parent-to-child
edges) and the flat flow record list. -/
structure DataFlowTracker where
  graphNodes : List (String × ProvenanceNode)
  graphEdges : List (String × List String)
  flowRecords : List FlowRecord
deriving DecidableEq, Repr

/-- RecordDataFlow: add a parentless provenance node for the operation and
append the flow record, whose cross_boundary bit compares the two
jurisdictions. -/
def recordDataFlow (dft : DataFlowTracker)
    (artifactID operation srcJ tgtJ : String) (now : Int) : DataFlowTracker :=
  let nodeID := sha256hex (artifactID ++ ":" ++ operation ++ ":" ++ srcJ ++ ":" ++
    tgtJ ++ ":" ++ toString now)
  let node : ProvenanceNode :=
    { id := nodeID, artifactId := artifactID, operation := operation,
      jurisdictionId := srcJ, timestamp := now, parentNodes := [] }
  { graphNodes := insertMap dft.graphNodes nodeID node,
    graphEdges := dft.graphEdges,
    flowRecords := dft.flowRecords ++
      [{ nodeId := nodeID, artifactId := artifactID, operation := operation,
         sourceJurisdiction := srcJ, targetJurisdiction := tgtJ,
         timestamp := now, crossBoundary := srcJ != tgtJ }] }

/-- checkTemporalValidity of the integrated enforcer: collect the temporal
boundaries whose src:tgt key matches; vacuously true if none, otherwise at
least one must be valid at the timestamp. -/
def checkTemporalValidity (tbs : List TemporalBoundary) (boundaryKey : String)
    (ts : Int) : Bool :=
  let matching := tbs.filter (fun tb =>
    tb.sourceJurisdictionId ++ ":" ++ tb.targetJurisdictionId = boundaryKey)
  if matching.isEmpty then true
  else matching.any (fun tb => IsValidAt tb ts)

/-- Mutable state of the ResearchGradeBoundaryEnforcer: the base
registries, the revocation map, the temporal boundary map (id keyed), the
distributed enforcer and the provenance tracker, plus the Merkle audit
tree. -/
structure RGEState where
  base : BoundaryEnforcer
  revoked : List (String × Int)
  temporal : List (String × TemporalBoundary)
  dist : DistributedBoundaryEnforcer
  prov : DataFlowTracker
  merkle : MerkleTree
deriving DecidableEq, Repr

/-- First error of the binding loop: each binding must verify and must not
be revoked at the decision time, in order. -/
def firstBindingError (ed : List Nat → String → List Nat → Bool)
    (revoked : List (String × Int)) (now : Int) :
    List CryptographicBinding → Option JIBErr
  | [] => none
  | b :: rest =>
    if ¬ bindingVerify ed b then
      some (.bindingIntegrityViolation ("binding integrity violated for " ++ b.id))
    else if isRevoked revoked b.id now then
      some (.bindingIntegrityViolation ("binding integrity violated for " ++ b.id))
    else firstBindingError ed revoked now rest

/-- EnforceBoundaryWithAllChecks: the full pipeline in source order —
bindings present, binding integrity and revocation, domain resolution,
temporal validity, invariants I1 and I2, distributed consensus, provenance
recording, base CheckBoundary, invariant I5, Merkle append.  The returned
state carries every mutation the call performed before returning. -/
def enforceBoundaryWithAllChecks (st : RGEState)
    (ed : List Nat → String → List Nat → Bool)
    (artifactID sourceDomainID targetDomainID : String) (now : Int) :
    Except JIBErr BoundaryProof × RGEState :=
  match List.lookup artifactID st.base.boundArtifacts with
  | none => (.error (.invalidJurisdictionBinding
      ("no bindings found for " ++ artifactID)), st)
  | some bindings =>
    if bindings.isEmpty then
      (.error (.invalidJurisdictionBinding
        ("no bindings found for " ++ artifactID)), st)
    else match firstBindingError ed st.revoked now bindings with
    | some e => (.error e, st)
    | none =>
      match List.lookup sourceDomainID st.base.executionDomains,
            List.lookup targetDomainID st.base.executionDomains with
      | some sd, some td =>
        let boundaryKey := sd.jurisdictionId ++ ":" ++ td.jurisdictionId
        if ¬ checkTemporalValidity (st.temporal.map (fun kv => kv.2)) boundaryKey now then
          (.error (.temporalConstraintViolation
            ("no valid temporal boundary for " ++ boundaryKey ++
             " at timestamp " ++ toString now)), st)
        else match checkNoUnboundExecution st.base artifactID with
        | some _ => (.error (.invariantViolation "I1"), st)
        | none =>
          match checkExplicitBoundaries st.base sd.jurisdictionId td.jurisdictionId with
          | some _ => (.error (.invariantViolation "I2"), st)
          | none =>
          let dd := proposeBoundaryDecision st.dist artifactID sourceDomainID
            targetDomainID now
          let st1 := { st with dist := dd.2 }
          if ¬ dd.1 then
            (.error (.consensusFailure
              "distributed consensus denied boundary crossing"), st1)
          else
            let prov2 := recordDataFlow st1.prov artifactID "boundary_check"
              sd.jurisdictionId td.jurisdictionId now
            let st2 := { st1 with prov := prov2 }
            match (CheckBoundary st2.base artifactID sourceDomainID targetDomainID now).1 with
            | .error e => (.error e, st2)
            | .ok proof =>
              match checkAuditability proof with
              | some _ => (.error (.invariantViolation "I5"), st2)
              | none =>
                (.ok proof, { st2 with merkle := addLeaf st2.merkle (proofHash proof) })
      | _, _ =>
        (.error (.jurisdictionalViolation ("artifact " ++ artifactID ++
          " not bound to source jurisdiction " ++ sourceDomainID)), st)

/-- Sibling-hash path exactly as the specification words it: over the
levels of the binary Merkle tree of the given leaf list (all levels below
the root), take the `i xor 1` sibling and advance `i := i / 2`. -/
def claimSiblingPath (leaves : List String) (i : Nat) : List String :=
  getProofLoop (levelsFrom leaves).dropLast i

/-- Whether an Except result is a success. -/
def exceptIsOk : Except JIBErr BoundaryProof → Bool
  | .ok _ => true
  | .error _ => false

/-- Opaque Ed25519 stand-in that accepts every signature, for concrete runs. -/
def alwaysVerify : List Nat → String → List Nat → Bool := fun _ _ _ => true

/-- A signed binding of model-x to us-tx. -/
def bindingModelXTx : CryptographicBinding :=
  { id := "b1", artifactId := "model-x", jurisdictionId := "us-tx",
    bindingType := "static", signatureAlgorithm := "Ed25519",
    publicKey := [1], signature := [1], artifactHash := "h", timestamp := 1 }

/-- A signed binding of artifact a to us-ca. -/
def bindingACa : CryptographicBinding :=
  { id := "b2", artifactId := "a", jurisdictionId := "us-ca",
    bindingType := "static", signatureAlgorithm := "Ed25519",
    publicKey := [1], signature := [1], artifactHash := "h", timestamp := 1 }

/-- Completely fresh enforcer state. -/
def freshRGEState : RGEState :=
  { base := freshBoundaryEnforcer, revoked := [], temporal := [],
    dist := ⟨"node-1", [], [], []⟩,
    prov := ⟨[], [], []⟩,
    merkle := freshMerkleTree }

/-- State where model-x is bound to us-tx but both registered domains lie
in us-ca: every check up to and including consensus passes, and the final
base CheckBoundary rejects the unbound source jurisdiction. -/
def stateUnboundToSource : RGEState :=
  { base := { jurisdictions := [],
              executionDomains := [("d1", ⟨"d1", "D1", "us-ca"⟩),
                                   ("d2", ⟨"d2", "D2", "us-ca"⟩)],
              boundArtifacts := [("model-x", [bindingModelXTx])],
              boundaries := [] },
    revoked := [], temporal := [],
    dist := ⟨"node-1", [], [], []⟩,
    prov := ⟨[], [], []⟩,
    merkle := freshMerkleTree }

/-- State where artifact a is bound to us-ca and both domains lie in
us-ca: the pipeline completes and emits a denied proof (no boundary rule). -/
def stateSameJurisdiction : RGEState :=
  { base := { jurisdictions := [],
              executionDomains := [("d1", ⟨"d1", "D1", "us-ca"⟩),
                                   ("d2", ⟨"d2", "D2", "us-ca"⟩)],
              boundArtifacts := [("a", [bindingACa])],
              boundaries := [] },
    revoked := [], temporal := [],
    dist := ⟨"node-1", [], [], []⟩,
    prov := ⟨[], [], []⟩,
    merkle := freshMerkleTree }

/-- State with domains in two distinct jurisdictions and no boundary rule
between them. -/
def stateCrossNoBoundary : RGEState :=
  { base := { jurisdictions := [],
              executionDomains := [("d1", ⟨"d1", "D1", "us-ca"⟩),
                                   ("d2", ⟨"d2", "D2", "us-tx"⟩)],
              boundArtifacts := [("a", [bindingACa])],
              boundaries := [] },
    revoked := [], temporal := [],
    dist := ⟨"node-1", [], [], []⟩,
    prov := ⟨[], [], []⟩,
    merkle := freshMerkleTree }

/-- Temporal boundary with a well-ordered validity window [2, 7]. -/
def boundaryWindow : TemporalBoundary :=
  { id := "tb1", sourceJurisdictionId := "us-ca", targetJurisdictionId := "us-tx",
    allowed := true, reason := "window", validFrom := some 2, validUntil := some 7,
    temporalOperator := "G", renewalPolicy := none }

/-- Temporal boundary whose ValidFrom lies after its ValidUntil. -/
def invertedWindow : TemporalBoundary :=
  { id := "tb2", sourceJurisdictionId := "us-ca", targetJurisdictionId := "us-tx",
    allowed := true, reason := "inverted", validFrom := some 10, validUntil := some 5,
    temporalOperator := "G", renewalPolicy := none }

/-- Distributed enforcer with two peers (three nodes in total). -/
def threePeerEnforcer : DistributedBoundaryEnforcer :=
  ⟨"node-1", ["node-2", "node-3"], [], []⟩

/-- The denied proof emitted for artifact a moving d1 to d2 at time 5
when no boundary rule exists (both for the same-jurisdiction pipeline run
and for the bare cross-jurisdiction CheckBoundary). -/
def deniedProofA : BoundaryProof :=
  { id := sha256hex ("a" ++ ":" ++ "d1" ++ ":" ++ "d2"), artifactId := "a",
    sourceDomainId := "d1", targetDomainId := "d2", jurisdictionId := "us-ca",
    allowed := false, reason := "No explicit boundary rule defined",
    timestamp := 5, evidence := [] }

/-- Length of one pairing step. -/
theorem pairHash_length (l : List String) : (pairHash l).length = (l.length + 1) / 2 := by
  induction l using pairHash.induct with
  | case1 => simp [pairHash]
  | case2 l => simp [pairHash]
  | case3 l r rest ih => simp [pairHash, ih]; omega

/-- The fuel is irrelevant as long as it dominates the level length. -/
theorem levelsFromGo_congr : ∀ (f₁ f₂ : Nat) (cur : List String),
    cur.length ≤ f₁ + 1 → cur.length ≤ f₂ + 1 →
    levelsFromGo f₁ cur = levelsFromGo f₂ cur := by
  intro f₁
  induction f₁ with
  | zero =>
    intro f₂ cur h₁ h₂
    cases f₂ with
    | zero => rfl
    | succ f₂ => simp [levelsFromGo, h₁]
  | succ f₁ ih =>
    intro f₂ cur h₁ h₂
    cases f₂ with
    | zero =>
      have hc : cur.length ≤ 1 := h₂
      simp [levelsFromGo, hc]
    | succ f₂ =>
      by_cases hc : cur.length ≤ 1
      · simp [levelsFromGo, hc]
      · have hp : (pairHash cur).length = (cur.length + 1) / 2 := pairHash_length cur
        have hb₁ : (pairHash cur).length ≤ f₁ + 1 := by omega
        have hb₂ : (pairHash cur).length ≤ f₂ + 1 := by omega
        simp [levelsFromGo, hc, ih f₂ (pairHash cur) hb₁ hb₂]

/-- Canonical unfolding of `levelsFrom`. -/
theorem levelsFrom_eq (cur : List String) :
    levelsFrom cur =
      if cur.length ≤ 1 then [cur] else cur :: levelsFrom (pairHash cur) := by
  unfold levelsFrom
  by_cases hc : cur.length ≤ 1
  · cases hn : cur.length with
    | zero => simp [levelsFromGo, hc]
    | succ n =>
      have h0 : n = 0 := by omega
      simp [levelsFromGo, hc, h0]
  · have hp : (pairHash cur).length = (cur.length + 1) / 2 := pairHash_length cur
    obtain ⟨n, hn⟩ : ∃ n, cur.length = n + 1 := ⟨cur.length - 1, by omega⟩
    rw [hn]
    have hb₁ : (pairHash cur).length ≤ n + 1 := by omega
    have hb₂ : (pairHash cur).length ≤ (pairHash cur).length + 1 := by omega
    show levelsFromGo (n + 1) cur = _
    rw [show levelsFromGo (n + 1) cur =
      if cur.length ≤ 1 then [cur] else cur :: levelsFromGo n (pairHash cur) from rfl]
    rw [if_neg hc, if_neg (show ¬ n + 1 ≤ 1 by omega)]
    exact congrArg (cur :: ·)
      (levelsFromGo_congr n ((pairHash cur).length) (pairHash cur) hb₁ hb₂)

/-- `levelsFrom` always starts with the given level, hence is never empty. -/
theorem levelsFrom_ne_nil (l : List String) : levelsFrom l ≠ [] := by
  rw [levelsFrom_eq]
  split <;> simp

/-- Rebuilding never touches the leaf list. -/
theorem rebuildTree_leaves (mt : MerkleTree) :
    (rebuildTree mt).leaves = mt.leaves := by
  unfold rebuildTree
  split <;> rfl

/-- AddLeaf appends exactly the given leaf. -/
theorem addLeaf_leaves (mt : MerkleTree) (h : String) :
    (addLeaf mt h).leaves = mt.leaves ++ [h] := by
  unfold addLeaf
  rw [rebuildTree_leaves]

/-- A sequence of AddLeaf calls appends exactly the given leaves. -/
theorem addLeafs_leaves (hs : List String) : ∀ mt : MerkleTree,
    (addLeafs mt hs).leaves = mt.leaves ++ hs := by
  induction hs with
  | nil => intro mt; simp [addLeafs]
  | cons h rest ih =>
    intro mt
    show (addLeafs (addLeaf mt h) rest).leaves = _
    rw [ih, addLeaf_leaves]
    simp

/-- After any rebuild with non-empty leaves the root is the head of the
last freshly appended level, whatever stale levels precede it. -/
theorem getRoot_rebuildTree (mt : MerkleTree) (h : mt.leaves ≠ []) :
    getRoot (rebuildTree mt) = rootOfLeaves mt.leaves := by
  unfold rebuildTree getRoot rootOfLeaves
  rw [if_neg h]
  rw [show ({ mt with tree := mt.tree ++ levelsFrom mt.leaves } : MerkleTree).tree =
    mt.tree ++ levelsFrom mt.leaves from rfl]
  rw [List.getLast?_append_of_ne_nil mt.tree (levelsFrom_ne_nil mt.leaves)]
  cases hl : (levelsFrom mt.leaves).getLast? with
  | none =>
    exact absurd (List.getLast?_eq_none_iff.mp hl) (levelsFrom_ne_nil mt.leaves)
  | some lvl =>
    have : (levelsFrom mt.leaves).getLastD [] = lvl := by
      simp [List.getLastD_eq_getLast?, hl]
    rw [this]
    cases lvl <;> simp

/-- The root after AddLeaf is the root of the extended leaf list. -/
theorem getRoot_addLeaf (mt : MerkleTree) (h : String) :
    getRoot (addLeaf mt h) = rootOfLeaves (mt.leaves ++ [h]) := by
  unfold addLeaf
  rw [getRoot_rebuildTree _ (by simp)]

/-- The root after any non-empty AddLeaf sequence is the root of the final
leaf list, independent of the accumulated level slices. -/
theorem getRoot_addLeafs (hs : List String) : ∀ mt : MerkleTree, hs ≠ [] →
    getRoot (addLeafs mt hs) = rootOfLeaves (mt.leaves ++ hs) := by
  induction hs with
  | nil => intro mt h; exact absurd rfl h
  | cons h rest ih =>
    intro mt _
    show getRoot (addLeafs (addLeaf mt h) rest) = _
    by_cases hr : rest = []
    · subst hr
      show getRoot (addLeaf mt h) = _
      rw [getRoot_addLeaf]
    · rw [ih (addLeaf mt h) hr, addLeaf_leaves]
      simp

/-- Boolean-to-window characterization of IsValidAt. -/
theorem isValidAt_true_iff (tb : TemporalBoundary) (t : Int) :
    IsValidAt tb t = true ↔
      ((∀ vf, tb.validFrom = some vf → vf ≤ t) ∧
       (∀ vu, tb.validUntil = some vu → t ≤ vu)) := by
  cases hf : tb.validFrom with
  | none =>
    cases hu : tb.validUntil with
    | none => simp [IsValidAt, IsValidAtUpper, hf, hu]
    | some vu =>
      simp only [IsValidAt, IsValidAtUpper, hf, hu]
      split_ifs with h <;> simp [hf, hu] <;> omega
  | some vf =>
    cases hu : tb.validUntil with
    | none =>
      simp only [IsValidAt, IsValidAtUpper, hf, hu]
      split_ifs with h <;> simp [hf, hu] <;> omega
    | some vu =>
      simp only [IsValidAt, IsValidAtUpper, hf, hu]
      split_ifs with h1 h2 <;> simp [hf, hu] <;> omega

/-- C7 (amended): IsValidAt t is true exactly when t lies above the
optional ValidFrom and below the optional ValidUntil; consequently a
temporal boundary with ValidUntil = u is valid at u whenever its
ValidFrom is unset or at most u, and is never valid at u + 1.  (The
claim as stated asserted validity at u without the ValidFrom proviso.) -/
theorem c7_isValidAt_window (tb : TemporalBoundary) :
    (∀ t : Int, IsValidAt tb t = true ↔
      ((∀ vf, tb.validFrom = some vf → vf ≤ t) ∧
       (∀ vu, tb.validUntil = some vu → t ≤ vu))) ∧
    (∀ u : Int, tb.validUntil = some u →
      (tb.validFrom = none ∨ ∃ vf, tb.validFrom = some vf ∧ vf ≤ u) →
      IsValidAt tb u = true) ∧
    (∀ u : Int, tb.validUntil = some u → IsValidAt tb (u + 1) = false) := by
  refine ⟨isValidAt_true_iff tb, ?_, ?_⟩
  · intro u hu hf
    rw [isValidAt_true_iff]
    constructor
    · intro vf hvf
      rcases hf with h | ⟨vf', hvf', hle⟩
      · rw [h] at hvf; cases hvf
      · rw [hvf'] at hvf; injection hvf with h'; omega
    · intro vu hvu
      rw [hu] at hvu; injection hvu with h'; omega
  · intro u hu
    cases hval : IsValidAt tb (u + 1) with
    | false => rfl
    | true =>
      have hw := (isValidAt_true_iff tb (u + 1)).mp hval
      have h2 := hw.2 u hu
      omega

/-- C7 counterexample: a temporal boundary whose ValidFrom (10) exceeds
its ValidUntil (5) has ValidUntil = u = 5 yet IsValidAt(u) is false,
against the claim's unconditional assertion that IsValidAt(u) is true. -/
theorem c7_counterexample :
    invertedWindow.validUntil = some 5 ∧ IsValidAt invertedWindow 5 = false :=
  ⟨rfl, by decide⟩

/-- C7 witness: the well-ordered window [2, 7] is valid at 7 and invalid
at 8. -/
theorem c7_witness :
    IsValidAt boundaryWindow 7 = true ∧ IsValidAt boundaryWindow (7 + 1) = false :=
  ⟨(c7_isValidAt_window boundaryWindow).2.1 7 rfl (Or.inr ⟨2, rfl, by omega⟩),
   (c7_isValidAt_window boundaryWindow).2.2 7 rfl⟩

/-- Definitional unfolding of HasQuorum. -/
theorem hasQuorum_def_unfold (dbe : DistributedBoundaryEnforcer)
    (votes : List (String × Bool)) :
    HasQuorum dbe votes =
      decide (votes.length ≥ 2 * ((dbe.peers.length + 1 - 1) / 3) + 1) := rfl

/-- C8: HasQuorum accepts exactly the vote maps whose number of entries
reaches 2 * floor((N - 1) / 3) + 1 for N = peers + 1, and it depends only
on the number of entries, not on any vote's boolean value. -/
theorem c8_hasQuorum_participation (dbe : DistributedBoundaryEnforcer)
    (votes : List (String × Bool)) :
    (HasQuorum dbe votes = true ↔
      votes.length ≥ 2 * ((dbe.peers.length + 1 - 1) / 3) + 1) ∧
    (∀ votes' : List (String × Bool), votes'.length = votes.length →
      HasQuorum dbe votes' = HasQuorum dbe votes) := by
  constructor
  · rw [hasQuorum_def_unfold]
    exact decide_eq_true_iff
  · intro votes' h
    rw [hasQuorum_def_unfold, hasQuorum_def_unfold, h]

/-- C8 witness: with two peers (three nodes, f = 0, quorum 1), three
unanimous-false votes reach quorum, and equal many unanimous-true votes. -/
theorem c8_witness :
    HasQuorum threePeerEnforcer
      [("node-1", false), ("node-2", false), ("node-3", false)] = true ∧
    HasQuorum threePeerEnforcer
        [("node-1", false), ("node-2", false), ("node-3", false)] =
      HasQuorum threePeerEnforcer
        [("node-1", true), ("node-2", true), ("node-3", true)] :=
  ⟨(c8_hasQuorum_participation threePeerEnforcer _).1.mpr (by decide),
   (c8_hasQuorum_participation threePeerEnforcer
      [("node-1", true), ("node-2", true), ("node-3", true)]).2 _ (by decide)⟩

/-- C9: ComputeDecision is false on the empty vote map, false as soon as
one vote is false, and true exactly when the map is non-empty with every
vote true. -/
theorem c9_computeDecision_conjunction (votes : List (String × Bool)) :
    (votes = [] → ComputeDecision votes = false) ∧
    (∀ k : String, (k, false) ∈ votes → ComputeDecision votes = false) ∧
    (ComputeDecision votes = true ↔
      votes ≠ [] ∧ ∀ kv ∈ votes, kv.2 = true) := by
  refine ⟨?_, ?_, ?_⟩
  · intro h; subst h; rfl
  · intro k hk
    cases votes with
    | nil => cases hk
    | cons v vs =>
      show ComputeDecision (v :: vs) = false
      unfold ComputeDecision
      rw [if_neg (by simp)]
      cases hall : (v :: vs).all (fun kv => kv.2) with
      | false => rfl
      | true =>
        rw [List.all_eq_true] at hall
        exact absurd (hall (k, false) hk) (by simp)
  · cases votes with
    | nil => simp [ComputeDecision]
    | cons v vs => simp [ComputeDecision, List.all_eq_true]

/-- C9 witness: one false vote forces a false decision, the empty map
decides false, and a singleton true vote decides true. -/
theorem c9_witness :
    ComputeDecision [("a", true), ("b", false)] = false ∧
    ComputeDecision [] = false ∧
    ComputeDecision [("a", true)] = true :=
  ⟨(c9_computeDecision_conjunction [("a", true), ("b", false)]).2.1 "b" (by simp),
   (c9_computeDecision_conjunction []).1 rfl,
   (c9_computeDecision_conjunction [("a", true)]).2.2.mpr (by simp)⟩

/-- CheckBoundary returns its receiver untouched: the Go method performs
no field assignment. -/
theorem checkBoundary_preserves_state (be : BoundaryEnforcer)
    (artifactID sourceDomainID targetDomainID : String) (now : Int) :
    (CheckBoundary be artifactID sourceDomainID targetDomainID now).2 = be := by
  unfold CheckBoundary
  split
  · split <;> rfl
  · rfl

/-- C10: CheckBoundary is read-only — all four registries of the enforcer
are unchanged whether it returns a proof or an error. -/
theorem c10_checkBoundary_readonly (be : BoundaryEnforcer)
    (artifactID sourceDomainID targetDomainID : String) (now : Int) :
    (CheckBoundary be artifactID sourceDomainID targetDomainID now).2.jurisdictions =
        be.jurisdictions ∧
    (CheckBoundary be artifactID sourceDomainID targetDomainID now).2.executionDomains =
        be.executionDomains ∧
    (CheckBoundary be artifactID sourceDomainID targetDomainID now).2.boundArtifacts =
        be.boundArtifacts ∧
    (CheckBoundary be artifactID sourceDomainID targetDomainID now).2.boundaries =
        be.boundaries := by
  rw [checkBoundary_preserves_state]
  exact ⟨rfl, rfl, rfl, rfl⟩

/-- C2 (code behaviour at the failing input): after AddLeaf("a"),
AddLeaf("b"), AddLeaf("c") on a fresh tree, GetProof(0) walks the stale
accumulated levels and returns three hashes with the sibling "b"
duplicated, while the sibling path of the claim over the current leaf
list is the two-hash list. -/
theorem c2_getProof_includes_stale_levels :
    getProof (addLeafs freshMerkleTree ["a", "b", "c"]) 0 =
      ["b", "b", combineHash "c" "c"] ∧
    claimSiblingPath ["a", "b", "c"] 0 = ["b", combineHash "c" "c"] := by
  constructor <;> rfl

/-- C3 (amended): the Merkle root after appending any leaf sequence to a
fresh tree is a function of the leaf list alone; and appending a
non-empty leaf to the fresh (empty) tree strictly changes the root.  (The
claim as stated asserted a root change for every state and every leaf;
appending the empty-string leaf to an empty tree keeps the root "".) -/
theorem c3_root_function_of_leaves :
    (∀ L : List String, getRoot (addLeafs freshMerkleTree L) = rootOfLeaves L) ∧
    (∀ h : String, h ≠ "" →
      getRoot (addLeaf freshMerkleTree h) ≠ getRoot freshMerkleTree) := by
  constructor
  · intro L
    by_cases hL : L = []
    · subst hL; rfl
    · rw [getRoot_addLeafs L freshMerkleTree hL]
      rfl
  · intro h hne
    rw [getRoot_addLeaf]
    exact hne

/-- C3 counterexample: appending the empty-string leaf to a fresh tree
leaves the root unchanged — the empty string before and after. -/
theorem c3_counterexample :
    getRoot (addLeaf freshMerkleTree "") = getRoot freshMerkleTree := by rfl

/-- C3 witness: the root of a fresh tree after "a", "b" equals the root
function of the leaf list, and appending "a" to a fresh tree changes the
root. -/
theorem c3_witness :
    getRoot (addLeafs freshMerkleTree ["a", "b"]) = rootOfLeaves ["a", "b"] ∧
    getRoot (addLeaf freshMerkleTree "a") ≠ getRoot freshMerkleTree :=
  ⟨c3_root_function_of_leaves.1 ["a", "b"],
   c3_root_function_of_leaves.2 "a" (by decide)⟩

/-- A successful pipeline call passed the explicit-boundary invariant on
the resolved jurisdiction pair, produced its proof through the base
CheckBoundary, and passed the auditability check. -/
theorem enforce_ok_inversion (st : RGEState)
    (ed : List Nat → String → List Nat → Bool)
    (artifactID sourceDomainID targetDomainID : String) (now : Int)
    (p : BoundaryProof) (st' : RGEState)
    (h : enforceBoundaryWithAllChecks st ed artifactID sourceDomainID
      targetDomainID now = (.ok p, st')) :
    ∃ sd td : ExecutionDomain,
      List.lookup sourceDomainID st.base.executionDomains = some sd ∧
      List.lookup targetDomainID st.base.executionDomains = some td ∧
      checkExplicitBoundaries st.base sd.jurisdictionId td.jurisdictionId = none ∧
      (CheckBoundary st.base artifactID sourceDomainID targetDomainID now).1 = .ok p ∧
      checkAuditability p = none := by
  simp only [enforceBoundaryWithAllChecks] at h
  repeat' split at h
  all_goals rw [Prod.mk.injEq] at h
  all_goals obtain ⟨he, hst⟩ := h
  all_goals try exact Except.noConfusion he
  injection he with hp
  subst hp
  exact ⟨_, _, by assumption, by assumption, by assumption, by assumption,
    by assumption⟩

/-- Missing fields make CheckAuditability report; a silent pass certifies
the I5 field predicates. -/
theorem checkAuditability_none_spec (p : BoundaryProof)
    (h : checkAuditability p = none) :
    p.id ≠ "" ∧ p.artifactId ≠ "" ∧ p.jurisdictionId ≠ "" ∧
      p.reason ≠ "" ∧ p.timestamp > 0 := by
  unfold checkAuditability at h
  repeat' split at h
  all_goals try exact Option.noConfusion h
  refine ⟨?_, ?_, ?_, ?_, ?_⟩ <;> first | assumption | omega

/-- C1 (amended): a pipeline call that returns an error appends no leaf
to the Merkle tree; its provenance tracker is untouched unless the error
arose after consensus approval, in the final base boundary check
(the returned error is exactly the base check's) or in the I5 audit check
on the base check's proof, and in those two cases the tracker holds
exactly the one data-flow record of this call.  Errors raised before the
provenance step — missing or bad bindings, unresolved domains, temporal
violations, I1, I2, consensus denial — leave the provenance unchanged.
(The claim as stated forbade the flow record on every error path; the
base check and I5 run after provenance recording and can still fail.) -/
theorem c1_error_no_merkle_append (st : RGEState)
    (ed : List Nat → String → List Nat → Bool)
    (artifactID sourceDomainID targetDomainID : String) (now : Int)
    (e : JIBErr) (st' : RGEState)
    (h : enforceBoundaryWithAllChecks st ed artifactID sourceDomainID
      targetDomainID now = (.error e, st')) :
    st'.merkle = st.merkle ∧
    (st'.prov = st.prov ∨
      ∃ sd td : ExecutionDomain,
        List.lookup sourceDomainID st.base.executionDomains = some sd ∧
        List.lookup targetDomainID st.base.executionDomains = some td ∧
        (proposeBoundaryDecision st.dist artifactID sourceDomainID
          targetDomainID now).1 = true ∧
        ((CheckBoundary st.base artifactID sourceDomainID targetDomainID now).1 =
            Except.error e ∨
          ∃ (p : BoundaryProof) (msg : String),
            (CheckBoundary st.base artifactID sourceDomainID targetDomainID now).1 =
              Except.ok p ∧
            checkAuditability p = some msg ∧
            e = JIBErr.invariantViolation "I5") ∧
        st'.prov = recordDataFlow st.prov artifactID "boundary_check"
          sd.jurisdictionId td.jurisdictionId now) := by
  simp only [enforceBoundaryWithAllChecks] at h
  repeat' split at h
  all_goals rw [Prod.mk.injEq] at h
  all_goals obtain ⟨he, hst⟩ := h
  all_goals first
    | exact Except.noConfusion he
    | (subst hst; exact ⟨rfl, Or.inl rfl⟩)
    | (subst hst
       injection he with he'
       subst he'
       exact ⟨rfl, Or.inr ⟨_, _, by assumption, by assumption,
         not_not.mp (by assumption), Or.inl (by assumption), rfl⟩⟩)
    | (subst hst
       injection he with he'
       subst he'
       exact ⟨rfl, Or.inr ⟨_, _, by assumption, by assumption,
         not_not.mp (by assumption),
         Or.inr ⟨_, _, by assumption, by assumption, rfl⟩, rfl⟩⟩)

/-- C1 counterexample: with model-x bound to us-tx and both domains in
us-ca, the call errors (the base check rejects the unbound source
jurisdiction) yet one provenance flow record has been recorded by the
erroring call. -/
theorem c1_counterexample :
    exceptIsOk (enforceBoundaryWithAllChecks stateUnboundToSource alwaysVerify
      "model-x" "d1" "d2" 5).1 = false ∧
    (enforceBoundaryWithAllChecks stateUnboundToSource alwaysVerify
      "model-x" "d1" "d2" 5).2.prov.flowRecords.length =
      stateUnboundToSource.prov.flowRecords.length + 1 := by
  constructor <;> rfl

/-- C1 witness: an unbound artifact errors on the fresh state and, per
the theorem, leaves the Merkle tree unchanged and either kept the
provenance tracker untouched or recorded the single late flow record. -/
theorem c1_witness :
    freshRGEState.merkle = freshRGEState.merkle ∧
    (freshRGEState.prov = freshRGEState.prov ∨
      ∃ sd td : ExecutionDomain,
        List.lookup "d1" freshRGEState.base.executionDomains = some sd ∧
        List.lookup "d2" freshRGEState.base.executionDomains = some td ∧
        (proposeBoundaryDecision freshRGEState.dist "x" "d1" "d2" 5).1 = true ∧
        ((CheckBoundary freshRGEState.base "x" "d1" "d2" 5).1 =
            Except.error (.invalidJurisdictionBinding ("no bindings found for " ++ "x")) ∨
          ∃ (p : BoundaryProof) (msg : String),
            (CheckBoundary freshRGEState.base "x" "d1" "d2" 5).1 = Except.ok p ∧
            checkAuditability p = some msg ∧
            (JIBErr.invalidJurisdictionBinding ("no bindings found for " ++ "x")) =
              JIBErr.invariantViolation "I5") ∧
        freshRGEState.prov = recordDataFlow freshRGEState.prov "x" "boundary_check"
          sd.jurisdictionId td.jurisdictionId 5) :=
  c1_error_no_merkle_append freshRGEState alwaysVerify "x" "d1" "d2" 5
    (.invalidJurisdictionBinding ("no bindings found for " ++ "x")) freshRGEState rfl

/-- C4: every proof the pipeline returns without error satisfies I5 — its
ID, ArtifactID, JurisdictionID and Reason are non-empty and its Timestamp
is strictly positive. -/
theorem c4_ok_proof_auditable (st : RGEState)
    (ed : List Nat → String → List Nat → Bool)
    (artifactID sourceDomainID targetDomainID : String) (now : Int)
    (p : BoundaryProof)
    (h : (enforceBoundaryWithAllChecks st ed artifactID sourceDomainID
      targetDomainID now).1 = .ok p) :
    p.id ≠ "" ∧ p.artifactId ≠ "" ∧ p.jurisdictionId ≠ "" ∧
      p.reason ≠ "" ∧ p.timestamp > 0 := by
  have hfull : enforceBoundaryWithAllChecks st ed artifactID sourceDomainID
      targetDomainID now =
      (.ok p, (enforceBoundaryWithAllChecks st ed artifactID sourceDomainID
        targetDomainID now).2) := by
    rw [← h]
  obtain ⟨sd, td, _, _, _, _, haud⟩ :=
    enforce_ok_inversion st ed artifactID sourceDomainID targetDomainID now p _ hfull
  exact checkAuditability_none_spec p haud

/-- C4 witness: the same-jurisdiction run succeeds with the concrete
denied proof, whose I5 fields the theorem certifies. -/
theorem c4_witness :
    (enforceBoundaryWithAllChecks stateSameJurisdiction alwaysVerify
      "a" "d1" "d2" 5).1 = .ok deniedProofA ∧
    (deniedProofA.id ≠ "" ∧ deniedProofA.artifactId ≠ "" ∧
      deniedProofA.jurisdictionId ≠ "" ∧ deniedProofA.reason ≠ "" ∧
      deniedProofA.timestamp > 0) :=
  ⟨rfl, c4_ok_proof_auditable stateSameJurisdiction alwaysVerify
    "a" "d1" "d2" 5 deniedProofA rfl⟩

/-- C5: when both domains resolve, their jurisdictions differ and no
boundary is registered under the src:tgt key, the pipeline can only deny:
a proof it returns is never allowed (in fact it always errors at I2), and
the base CheckBoundary emits, when it emits at all, a denied proof with
the fixed no-rule reason. -/
theorem c5_no_rule_means_deny (st : RGEState)
    (ed : List Nat → String → List Nat → Bool)
    (artifactID sourceDomainID targetDomainID : String) (now : Int)
    (sd td : ExecutionDomain)
    (hs : List.lookup sourceDomainID st.base.executionDomains = some sd)
    (ht : List.lookup targetDomainID st.base.executionDomains = some td)
    (hneq : sd.jurisdictionId ≠ td.jurisdictionId)
    (hnb : List.lookup (sd.jurisdictionId ++ ":" ++ td.jurisdictionId)
      st.base.boundaries = none) :
    (∀ p : BoundaryProof,
      (enforceBoundaryWithAllChecks st ed artifactID sourceDomainID
        targetDomainID now).1 = .ok p → p.allowed = false) ∧
    (∀ p : BoundaryProof,
      (CheckBoundary st.base artifactID sourceDomainID targetDomainID now).1 = .ok p →
        p.allowed = false ∧ p.reason = "No explicit boundary rule defined") := by
  constructor
  · intro p hp
    exfalso
    have hfull : enforceBoundaryWithAllChecks st ed artifactID sourceDomainID
        targetDomainID now =
        (.ok p, (enforceBoundaryWithAllChecks st ed artifactID sourceDomainID
          targetDomainID now).2) := by
      rw [← hp]
    obtain ⟨sd', td', hs', ht', hexp, _, _⟩ :=
      enforce_ok_inversion st ed artifactID sourceDomainID targetDomainID now p _ hfull
    rw [hs] at hs'
    rw [ht] at ht'
    injection hs' with hsd
    injection ht' with htd
    subst hsd
    subst htd
    unfold checkExplicitBoundaries at hexp
    rw [if_pos hneq, hnb] at hexp
    exact Option.noConfusion hexp
  · intro p hp
    unfold CheckBoundary at hp
    rw [hs, ht] at hp
    simp only at hp
    split at hp
    · rw [hnb] at hp
      injection hp with hpp
      subst hpp
      exact ⟨rfl, rfl⟩
    · exact Except.noConfusion hp

/-- C5 witness: distinct jurisdictions us-ca and us-tx with no boundary
rule — the base check emits the concrete denied proof with the fixed
reason, and the pipeline returns no proof at all. -/
theorem c5_witness :
    (CheckBoundary stateCrossNoBoundary.base "a" "d1" "d2" 5).1 = .ok deniedProofA ∧
    deniedProofA.allowed = false ∧
    deniedProofA.reason = "No explicit boundary rule defined" ∧
    exceptIsOk (enforceBoundaryWithAllChecks stateCrossNoBoundary alwaysVerify
      "a" "d1" "d2" 5).1 = false :=
  ⟨rfl,
   ((c5_no_rule_means_deny stateCrossNoBoundary alwaysVerify "a" "d1" "d2" 5
      ⟨"d1", "D1", "us-ca"⟩ ⟨"d2", "D2", "us-tx"⟩ rfl rfl (by decide) rfl).2
      deniedProofA rfl).1,
   ((c5_no_rule_means_deny stateCrossNoBoundary alwaysVerify "a" "d1" "d2" 5
      ⟨"d1", "D1", "us-ca"⟩ ⟨"d2", "D2", "us-tx"⟩ rfl rfl (by decide) rfl).2
      deniedProofA rfl).2,
   rfl⟩

/-- C6: an artifact with no registered binding — no entry or an empty
list — makes the pipeline fail with InvalidJurisdictionBinding and the
state unchanged, before anything else runs. -/
theorem c6_unbound_artifact_rejected (st : RGEState)
    (ed : List Nat → String → List Nat → Bool)
    (artifactID sourceDomainID targetDomainID : String) (now : Int)
    (h : List.lookup artifactID st.base.boundArtifacts = none ∨
         List.lookup artifactID st.base.boundArtifacts = some []) :
    enforceBoundaryWithAllChecks st ed artifactID sourceDomainID
      targetDomainID now =
      (.error (.invalidJurisdictionBinding
        ("no bindings found for " ++ artifactID)), st) := by
  rcases h with h | h
  · simp only [enforceBoundaryWithAllChecks, h]
  · simp only [enforceBoundaryWithAllChecks, h, List.isEmpty_nil, if_true]

/-- C6 witness: enforcing a never-bound artifact on the fresh state
returns exactly the InvalidJurisdictionBinding error and no proof. -/
theorem c6_witness :
    enforceBoundaryWithAllChecks freshRGEState alwaysVerify "model-x" "d1" "d2" 5 =
      (.error (.invalidJurisdictionBinding
        ("no bindings found for " ++ "model-x")), freshRGEState) :=
  c6_unbound_artifact_rejected freshRGEState alwaysVerify "model-x" "d1" "d2" 5
    (Or.inl rfl)
